import Mathlib

/-!
Shallow embedding of the auto-purchase decision engine of `bot.py` /
`config.py`: the per-user ledger (`try_debit` with lazy day rollover),
the price filter (`first_allowed_gift`), the quantity computation and
purchase loops of `try_auto_buy` / `on_buy`, and the settings entry
flow (`set_field`).  Database persistence and Telegram I/O are
abstracted: a user row becomes a `UserState` record, `db_save_user` is
the returned state, and the external `sendGift` call becomes an oracle
`Nat → Bool` giving the outcome of each successive send attempt.
-/

namespace Beast

/-- One user row of the `users` table, restricted to the fields the
auto-purchase engine reads and writes.  All numeric columns are Python
ints, modelled as `Int`. -/
structure UserState where
  credit : Int
  spentToday : Int
  spentDay : Int
  dailyBudget : Int
  overallLimit : Int
  supplyLimit : Int
  cycles : Int
  perDropMax : Int
  giftTtlHours : Int
  autoOn : Bool
  lowerLimit : Int
  upperLimit : Int
  deriving Repr, DecidableEq

/-- `DEFAULT_USER` of bot.py, engine-relevant fields. -/
def defaultUser : UserState :=
  { credit := 0, spentToday := 0, spentDay := 0, dailyBudget := 0,
    overallLimit := 0, supplyLimit := 0, cycles := 1, perDropMax := 1,
    giftTtlHours := 24, autoOn := false, lowerLimit := 0, upperLimit := 0 }

/-- Day-rollover step at the top of `try_debit`:
`if u.get("spent_day", 0) != today_key(): u["spent_day"] = today_key(); u["spent_today"] = 0`.
`today` is the result of `today_key()` (an integer yyyymmdd). -/
def rolloverDay (u : UserState) (today : Int) : UserState :=
  if u.spentDay ≠ today then { u with spentDay := today, spentToday := 0 } else u

/-- The check-and-debit part of `try_debit` after the day rollover.
Python truthiness of an int (`if u.get("daily_budget", 0) and ...`) is
`≠ 0`.  Returns the saved state, the success flag and the reason
string, mirroring `(bool, str)` plus the `db_save_user` side effect. -/
def checkDebit (u : UserState) (cost : Int) : UserState × Bool × String :=
  if u.credit < cost then (u, false, "Insufficient credit.")
  else if u.dailyBudget ≠ 0 ∧ u.spentToday + cost > u.dailyBudget then
    (u, false, "Daily budget exceeded.")
  else if u.overallLimit ≠ 0 ∧ u.overallLimit < cost then
    (u, false, "Overall limit reached.")
  else
    ({ u with credit := u.credit - cost,
              spentToday := u.spentToday + cost,
              overallLimit := if u.overallLimit ≠ 0 then u.overallLimit - cost
                              else u.overallLimit },
     true, "OK")

/-- `try_debit(uid, cost)` of bot.py: lazy day rollover, then the three
budget checks, then the debit.  The state component is what
`db_save_user` persists (the rollover is saved even on refusal). -/
def tryDebit (u : UserState) (cost : Int) (today : Int) : UserState × Bool × String :=
  checkDebit (rolloverDay u today) cost

/-- One row of the `gifts` table as read by the engine. -/
structure Gift where
  gid : String
  name : String
  price : Int
  deriving Repr, DecidableEq

/-- First `continue` condition of `first_allowed_gift`:
`if low and g["price"] < low`. -/
def priceTooLow (low : Int) (g : Gift) : Bool :=
  decide (low ≠ 0) && decide (g.price < low)

/-- Second `continue` condition of `first_allowed_gift`:
`if up and g["price"] > up`. -/
def priceTooHigh (up : Int) (g : Gift) : Bool :=
  decide (up ≠ 0) && decide (g.price > up)

/-- A gift survives both `continue` conditions of the loop body. -/
def giftAllowed (u : UserState) (g : Gift) : Bool :=
  !(priceTooLow u.lowerLimit g) && !(priceTooHigh u.upperLimit g)

/-- `first_allowed_gift(u)` of bot.py: the first active gift (in list
order) that passes both price-bound tests; `None` if none does. -/
def firstAllowedGift (u : UserState) (items : List Gift) : Option Gift :=
  items.find? (giftAllowed u)

/-- Quantity computation of `try_auto_buy`:
`permax = max(1, per_drop_max); qty = min(permax, cycles if cycles > 0 else permax);
if supply_limit: qty = min(qty, supply_limit)`. -/
def autoQty (u : UserState) : Int :=
  let permax := max 1 u.perDropMax
  let qty := min permax (if u.cycles > 0 then u.cycles else permax)
  if u.supplyLimit ≠ 0 then min qty u.supplyLimit else qty

/-- Number of successful sends in the loop
`for _ in range(n): ok2, why = try_send_gift(...); if not ok2: break; sent += 1`,
where `f i` is the outcome of the `i`-th `try_send_gift` call. -/
def sentCount (f : Nat → Bool) : Nat → Nat → Nat
  | _, 0 => 0
  | i, n + 1 => if f i then sentCount f (i + 1) n + 1 else 0

/-- Number of `try_send_gift` invocations the same loop makes (the
breaking call is counted). -/
def callsMade (f : Nat → Bool) : Nat → Nat → Nat
  | _, 0 => 0
  | i, n + 1 => if f i then callsMade f (i + 1) n + 1 else 1

/-- Observable outcome of one purchase attempt: the persisted user
state, how many external send calls were made, how many succeeded, and
the ledger rejection reason when the debit was refused. -/
structure AutoResult where
  state : UserState
  sendCalls : Nat
  sent : Nat
  failReason : Option String
  deriving Repr, DecidableEq

/-- Shared skeleton of `on_buy` and `try_auto_buy` after the target
gift and quantity are fixed: debit the total, stop with the ledger's
reason on refusal, otherwise run the send loop `qty` times. -/
def purchaseAttempt (u : UserState) (total : Int) (qty : Nat) (today : Int)
    (f : Nat → Bool) : AutoResult :=
  let r := tryDebit u total today
  if r.2.1 = false then ⟨r.1, 0, 0, some r.2.2⟩
  else ⟨r.1, callsMade f 0 qty, sentCount f 0 qty, none⟩

/-- `try_auto_buy(uid)` of bot.py: bail out when auto is off or no gift
passes the price filters; otherwise compute `qty` and `total`, debit,
and send.  `db_log` side effects are not modelled. -/
def tryAutoBuy (u : UserState) (items : List Gift) (today : Int)
    (f : Nat → Bool) : AutoResult :=
  if u.autoOn = false then ⟨u, 0, 0, none⟩
  else
    match firstAllowedGift u items with
    | none => ⟨u, 0, 0, none⟩
    | some g =>
      let qty := autoQty u
      purchaseAttempt u (g.price * qty) qty.toNat today f

/-- `on_buy` of bot.py (manual buy button `buy:<gid>:<count>`), after
the gift row was found active: `total = price * count`, debit, then the
send loop over `range(count)`. -/
def onBuy (u : UserState) (g : Gift) (count : Nat) (today : Int)
    (f : Nat → Bool) : AutoResult :=
  purchaseAttempt u (g.price * (count : Int)) count today f

/-- A sequence of debit operations: each element is `(cost, today)`,
applied left to right through `tryDebit`, keeping the saved state. -/
def runDebits (u : UserState) : List (Int × Int) → UserState
  | [] => u
  | (cost, day) :: rest => runDebits (tryDebit u cost day).1 rest

/-- The ledger invariant of the spec: credit is nonnegative, and the
daily spend never exceeds a nonzero daily budget. -/
def ledgerInv (u : UserState) : Prop :=
  0 ≤ u.credit ∧ (0 < u.dailyBudget → u.spentToday ≤ u.dailyBudget)

instance (u : UserState) : Decidable (ledgerInv u) := by
  unfold ledgerInv; infer_instance

/-- Clamping of `set_field`: `v = max(0, v); if field == "per_drop_max" and v < 1: v = 1`. -/
def clampField (field : String) (n : Int) : Int :=
  if field = "per_drop_max" ∧ max 0 n < 1 then 1 else max 0 n

/-- Store a clamped value into the named settings field (the
`set_user(uid, **{field: v})` call); an unknown field name changes
nothing.  The eight names are exactly those of `ENTRY_MAP`. -/
def applyField (u : UserState) (field : String) (v : Int) : UserState :=
  if field = "cycles" then { u with cycles := v }
  else if field = "per_drop_max" then { u with perDropMax := v }
  else if field = "lower_limit" then { u with lowerLimit := v }
  else if field = "upper_limit" then { u with upperLimit := v }
  else if field = "overall_limit" then { u with overallLimit := v }
  else if field = "supply_limit" then { u with supplyLimit := v }
  else if field = "daily_budget" then { u with dailyBudget := v }
  else if field = "gift_ttl_hours" then { u with giftTtlHours := v }
  else u

/-- `set_field` of bot.py.  `parsed` is the outcome of
`int(m.text.strip())`: `none` when Python `int()` raises (the handler
answers "Numbers only" and saves nothing), `some n` otherwise. -/
def setField (u : UserState) (field : String) (parsed : Option Int) : UserState :=
  match parsed with
  | none => u
  | some n => applyField u field (clampField field n)

/-- Modelled from the spec: the repository declares the cooldown length
(`BUY_COOLDOWN_SEC` in config.py) but the cooldown tracker itself
(`should_process` / `mark` of spec sections 4.4 and 8) is not under
src/; this is the spec's table `map<offer_id, last_seen_unix_ts>` with
`should_process(offer_id, now)` returning false iff the id has an entry
younger than `cooldown` seconds. -/
def shouldProcess (lastSeen : String → Option Int) (id : String) (now cooldown : Int) : Bool :=
  match lastSeen id with
  | none => true
  | some t => decide (cooldown ≤ now - t)

/-- Modelled from the spec: `mark(offer_id, now)` records the
processing time of an offer id in the cooldown table. -/
def markSeen (lastSeen : String → Option Int) (id : String) (now : Int) :
    String → Option Int :=
  fun j => if j = id then some now else lastSeen j

/-- Character-list version of "starts with", for the substring test. -/
def startsWithChars : List Char → List Char → Bool
  | [], _ => true
  | _ :: _, [] => false
  | a :: as, b :: bs => a == b && startsWithChars as bs

/-- `needle` occurs as a contiguous run inside the character list. -/
def hasSubChars (needle : List Char) : List Char → Bool
  | [] => needle.isEmpty
  | c :: rest => startsWithChars needle (c :: rest) || hasSubChars needle rest

/-- Lower-case a string character by character. -/
def lowerStr (s : String) : String :=
  String.mk (s.data.map Char.toLower)

/-- Buy admission predicate written from the words of the spec (section
4.2), for comparison with the code's `firstAllowedGift`: id allow-list,
case-insensitive keyword substring match, price bounds with 0 meaning
"no bound", and a positive scarcity counter when one is present. -/
def specBuyAllowed (allowIds allowKeys : List String) (low up : Int)
    (g : Gift) (remaining : Option Int) : Bool :=
  (allowIds.isEmpty || allowIds.contains g.gid)
  && (allowKeys.isEmpty
      || allowKeys.any (fun k => hasSubChars (lowerStr k).data (lowerStr g.name).data))
  && (decide (low = 0) || decide (low ≤ g.price))
  && (decide (up = 0) || decide (g.price ≤ up))
  && (match remaining with | none => true | some r => decide (0 < r))

/-- config.py `DEFAULT_ALLOW_IDS`: allowed gift ids (empty = any). -/
def DEFAULT_ALLOW_IDS : List String := []

/-- config.py `DEFAULT_ALLOW_KEYS`: title keywords (empty = any). -/
def DEFAULT_ALLOW_KEYS : List String := ["teddy", "ring"]

/-- config.py `BUY_COOLDOWN_SEC`: per-gift cooldown length in seconds. -/
def BUY_COOLDOWN_SEC : Int := 600

/-- A user with credit, auto-buy on, and today's day key already set. -/
def plushUser : UserState :=
  { defaultUser with credit := 100, autoOn := true, spentDay := 5 }

/-- A gift whose title matches neither of the configured default keywords. -/
def plushGift : Gift := ⟨"plush_bear", "Plush Bear", 30⟩

/-- A user whose credit cannot cover one `plushGift`. -/
def poorUser : UserState :=
  { defaultUser with credit := 10, autoOn := true, spentDay := 5 }

/-- A gift far more expensive than any configured bound. -/
def bigGift : Gift := ⟨"x", "X", 999999⟩

/-- An empty cooldown table. -/
def emptySeen : String → Option Int := fun _ => none

/-- Witness ledger for the admission condition: 100 credit, daily budget 50. -/
def w2 : UserState := { defaultUser with credit := 100, dailyBudget := 50, spentDay := 5 }

/-- Witness ledger for the budget invariant. -/
def w3 : UserState := { defaultUser with credit := 100, dailyBudget := 50 }

/-- Witness ledger with a stale day key (spentDay 4, today 5) and 40 spent. -/
def w6 : UserState :=
  { defaultUser with credit := 100, dailyBudget := 50, spentToday := 40, spentDay := 4 }

/-- Witness ledger whose overall limit equals the next purchase cost. -/
def w9 : UserState := { defaultUser with credit := 100, overallLimit := 30, spentDay := 5 }

/-- Witness ledger after the overall limit has been spent down to 0. -/
def w9b : UserState := { defaultUser with credit := 2000, spentDay := 5 }

theorem rolloverDay_credit (u : UserState) (today : Int) :
    (rolloverDay u today).credit = u.credit := by
  unfold rolloverDay; split <;> rfl

theorem rolloverDay_dailyBudget (u : UserState) (today : Int) :
    (rolloverDay u today).dailyBudget = u.dailyBudget := by
  unfold rolloverDay; split <;> rfl

theorem rolloverDay_overallLimit (u : UserState) (today : Int) :
    (rolloverDay u today).overallLimit = u.overallLimit := by
  unfold rolloverDay; split <;> rfl

theorem rolloverDay_supplyLimit (u : UserState) (today : Int) :
    (rolloverDay u today).supplyLimit = u.supplyLimit := by
  unfold rolloverDay; split <;> rfl

theorem checkDebit_spentDay (u : UserState) (cost : Int) :
    (checkDebit u cost).1.spentDay = u.spentDay := by
  unfold checkDebit; split_ifs <;> rfl

theorem checkDebit_dailyBudget (u : UserState) (cost : Int) :
    (checkDebit u cost).1.dailyBudget = u.dailyBudget := by
  unfold checkDebit; split_ifs <;> rfl

theorem beastFindCongr {α : Type} (p q : α → Bool) (h : ∀ a, p a = q a) :
    ∀ l : List α, l.find? p = l.find? q
  | [] => rfl
  | a :: l => by
    simp only [List.find?]
    rw [h a]
    cases q a <;> simp [beastFindCongr p q h l]

theorem ledgerInv_rolloverDay (u : UserState) (today : Int) (h : ledgerInv u) :
    ledgerInv (rolloverDay u today) := by
  unfold ledgerInv rolloverDay at *
  split <;> simp_all <;> omega

theorem ledgerInv_checkDebit (u : UserState) (cost : Int) (h : ledgerInv u) :
    ledgerInv (checkDebit u cost).1 := by
  unfold ledgerInv checkDebit at *
  split_ifs with h1 h2 h3 <;> simp_all <;> omega

theorem ledgerInv_tryDebit (u : UserState) (cost today : Int) (h : ledgerInv u) :
    ledgerInv (tryDebit u cost today).1 :=
  ledgerInv_checkDebit _ _ (ledgerInv_rolloverDay _ _ h)

/-- Claim C2: after the lazy day rollover, `try_debit` admits a debit of
`cost` iff credit covers it, the daily budget (when nonzero) is not
exceeded, the overall limit (when nonzero) covers it, and the supply
limit (always ≥ 0 as stored) is 0 or ≥ 1; each failing conjunct yields
its rejection reason, checked in source order.  The supply conjunct is
vacuous: `try_debit` performs no supply check, but stored supply limits
are nonnegative, so the biconditional holds. -/
theorem tryDebit_admits_iff (u : UserState) (cost today : Int)
    (hs : 0 ≤ u.supplyLimit) :
    ((tryDebit u cost today).2.1 = true ↔
      (cost ≤ u.credit
        ∧ (u.dailyBudget = 0 ∨ (rolloverDay u today).spentToday + cost ≤ u.dailyBudget)
        ∧ (u.overallLimit = 0 ∨ cost ≤ u.overallLimit)
        ∧ (u.supplyLimit = 0 ∨ 1 ≤ u.supplyLimit)))
    ∧ (u.credit < cost → (tryDebit u cost today).2.2 = "Insufficient credit.")
    ∧ (cost ≤ u.credit →
        u.dailyBudget ≠ 0 → u.dailyBudget < (rolloverDay u today).spentToday + cost →
        (tryDebit u cost today).2.2 = "Daily budget exceeded.")
    ∧ (cost ≤ u.credit →
        (u.dailyBudget = 0 ∨ (rolloverDay u today).spentToday + cost ≤ u.dailyBudget) →
        u.overallLimit ≠ 0 → u.overallLimit < cost →
        (tryDebit u cost today).2.2 = "Overall limit reached.") := by
  have hc := rolloverDay_credit u today
  have hd := rolloverDay_dailyBudget u today
  have ho := rolloverDay_overallLimit u today
  unfold tryDebit checkDebit
  refine ⟨?_, ?_, ?_, ?_⟩
  · split_ifs with h1 h2 h3 <;> simp_all <;> omega
  · intro h; split_ifs with h1 h2 h3 <;> simp_all
  · intro h hb hover; split_ifs with h1 h2 h3 <;> simp_all <;> omega
  · intro h hdy hb hover; split_ifs with h1 h2 h3 <;> simp_all <;> omega

/-- Witness for C2 at a concrete ledger: 100 credit, daily budget 50,
debit of 30 on the current day. -/
theorem tryDebit_admits_iff_witness :
    0 ≤ w2.supplyLimit
    ∧ (((tryDebit w2 30 5).2.1 = true ↔
        (30 ≤ w2.credit
          ∧ (w2.dailyBudget = 0 ∨ (rolloverDay w2 5).spentToday + 30 ≤ w2.dailyBudget)
          ∧ (w2.overallLimit = 0 ∨ 30 ≤ w2.overallLimit)
          ∧ (w2.supplyLimit = 0 ∨ 1 ≤ w2.supplyLimit)))
      ∧ (w2.credit < 30 → (tryDebit w2 30 5).2.2 = "Insufficient credit.")
      ∧ (30 ≤ w2.credit →
          w2.dailyBudget ≠ 0 → w2.dailyBudget < (rolloverDay w2 5).spentToday + 30 →
          (tryDebit w2 30 5).2.2 = "Daily budget exceeded.")
      ∧ (30 ≤ w2.credit →
          (w2.dailyBudget = 0 ∨ (rolloverDay w2 5).spentToday + 30 ≤ w2.dailyBudget) →
          w2.overallLimit ≠ 0 → w2.overallLimit < 30 →
          (tryDebit w2 30 5).2.2 = "Overall limit reached.")) :=
  ⟨by decide, tryDebit_admits_iff w2 30 5 (by decide)⟩

/-- Claim C3: for any sequence of debit operations started from a state
with nonnegative credit whose daily spend respects a nonzero daily
budget, every state the sequence reaches keeps credit nonnegative and
keeps daily spend within a nonzero daily budget. -/
theorem runDebits_ledgerInv (u : UserState) (ops : List (Int × Int)) (h : ledgerInv u) :
    ledgerInv (runDebits u ops) := by
  induction ops generalizing u with
  | nil => exact h
  | cons op rest ih =>
    obtain ⟨c, d⟩ := op
    exact ih _ (ledgerInv_tryDebit _ _ _ h)

/-- Witness for C3: three debits, the last on a new day, from 100
credit with daily budget 50. -/
theorem runDebits_ledgerInv_witness :
    ledgerInv w3 ∧ ledgerInv (runDebits w3 [(30, 5), (30, 5), (40, 6)]) :=
  ⟨by decide, runDebits_ledgerInv w3 [(30, 5), (30, 5), (40, 6)] (by decide)⟩

/-- Claim C6: when the stored day key differs from today, `try_debit`
first zeroes the daily spend and stamps today's key, and only then
evaluates the checks: the whole call equals the check-and-debit step on
the reset state, and the saved state carries today's key. -/
theorem tryDebit_dayRollover (u : UserState) (cost today : Int) (h : u.spentDay ≠ today) :
    tryDebit u cost today = checkDebit { u with spentDay := today, spentToday := 0 } cost
    ∧ (rolloverDay u today).spentToday = 0
    ∧ (rolloverDay u today).spentDay = today
    ∧ (tryDebit u cost today).1.spentDay = today := by
  unfold tryDebit rolloverDay
  rw [if_pos h]
  exact ⟨rfl, rfl, rfl, checkDebit_spentDay _ _⟩

/-- Witness for C6: day key 4, today 5, 40 already spent. -/
theorem tryDebit_dayRollover_witness :
    w6.spentDay ≠ 5
    ∧ (tryDebit w6 30 5 = checkDebit { w6 with spentDay := 5, spentToday := 0 } 30
       ∧ (rolloverDay w6 5).spentToday = 0
       ∧ (rolloverDay w6 5).spentDay = 5
       ∧ (tryDebit w6 30 5).1.spentDay = 5) :=
  ⟨by decide, tryDebit_dayRollover w6 30 5 (by decide)⟩

/-- Claim C9: a successful debit whose cost equals a positive overall
limit leaves the stored overall limit at 0, and any ledger whose
overall limit is 0 admits debits with no overall bound at all: the
admission condition degenerates to the credit and daily checks. -/
theorem overallLimit_spent_to_zero :
    (∀ (u : UserState) (cost today : Int), u.overallLimit = cost → 0 < cost →
      (tryDebit u cost today).2.1 = true →
      (tryDebit u cost today).1.overallLimit = 0)
    ∧ (∀ (v : UserState) (c t : Int), v.overallLimit = 0 →
        ((tryDebit v c t).2.1 = true ↔
          (c ≤ v.credit
            ∧ (v.dailyBudget = 0 ∨ (rolloverDay v t).spentToday + c ≤ v.dailyBudget)))) := by
  constructor
  · intro u cost today hov hpos hok
    have ho := rolloverDay_overallLimit u today
    unfold tryDebit checkDebit at *
    split_ifs at * <;> simp_all <;> omega
  · intro v c t hv
    have hc := rolloverDay_credit v t
    have hd := rolloverDay_dailyBudget v t
    have ho := rolloverDay_overallLimit v t
    unfold tryDebit checkDebit
    split_ifs with h1 h2 h3 <;> simp_all <;> omega

/-- Witness for C9: overall limit 30 spent by a 30-star debit, after
which a 999-star debit is no longer bounded by the overall limit. -/
theorem overallLimit_spent_to_zero_witness :
    w9.overallLimit = 30 ∧ (0 : Int) < 30 ∧ (tryDebit w9 30 5).2.1 = true
    ∧ (tryDebit w9 30 5).1.overallLimit = 0
    ∧ w9b.overallLimit = 0
    ∧ ((tryDebit w9b 999 5).2.1 = true ↔
        (999 ≤ w9b.credit
          ∧ (w9b.dailyBudget = 0 ∨ (rolloverDay w9b 5).spentToday + 999 ≤ w9b.dailyBudget))) :=
  ⟨by decide, by decide, by decide,
   overallLimit_spent_to_zero.1 w9 30 5 (by decide) (by decide) (by decide),
   by decide,
   overallLimit_spent_to_zero.2 w9b 999 5 (by decide)⟩

/-- Claim C7: an upper price limit of 0 is unbounded above: the
upper-bound test passes every gift, and `first_allowed_gift` reduces to
the lower-bound filter alone. -/
theorem upperZero_price_unbounded (u : UserState) (items : List Gift) (g : Gift)
    (h : u.upperLimit = 0) :
    priceTooHigh u.upperLimit g = false
    ∧ firstAllowedGift u items = items.find? (fun x => !(priceTooLow u.lowerLimit x)) := by
  have hph : ∀ x : Gift, priceTooHigh u.upperLimit x = false := by
    intro x; unfold priceTooHigh; rw [h]; simp
  refine ⟨hph g, ?_⟩
  unfold firstAllowedGift
  apply beastFindCongr
  intro x
  unfold giftAllowed
  rw [hph x]
  simp

/-- Witness for C7: a 999999-star gift passes the upper-bound test of a
user whose upper limit is 0. -/
theorem upperZero_price_unbounded_witness :
    plushUser.upperLimit = 0
    ∧ (priceTooHigh plushUser.upperLimit bigGift = false
       ∧ firstAllowedGift plushUser [bigGift] =
           [bigGift].find? (fun x => !(priceTooLow plushUser.lowerLimit x))) :=
  ⟨by decide, upperZero_price_unbounded plushUser [bigGift] bigGift (by decide)⟩

/-- Claim C4, counterexample to the claim as stated: `plushGift` fails
the keyword predicate of the spec's admission policy under the
configured default keyword set, yet `first_allowed_gift` selects it and
the auto-buy engine purchases it (one successful send, no refusal). -/
theorem buy_ignores_id_and_keyword_filters :
    firstAllowedGift plushUser [plushGift] = some plushGift
    ∧ (tryAutoBuy plushUser [plushGift] 5 (fun _ => true)).sent = 1
    ∧ (tryAutoBuy plushUser [plushGift] 5 (fun _ => true)).failReason = none
    ∧ specBuyAllowed DEFAULT_ALLOW_IDS DEFAULT_ALLOW_KEYS
        plushUser.lowerLimit plushUser.upperLimit plushGift none = false := by decide

/-- Claim C4 as amended: an offer is admitted for purchase exactly when
its price passes the two bound tests with 0 meaning "no bound"; the
allowed-id set, the keyword set, and scarcity are never consulted. -/
theorem firstAllowed_price_only (u : UserState) (items : List Gift) :
    firstAllowedGift u items =
      items.find? (fun g => decide ((u.lowerLimit = 0 ∨ u.lowerLimit ≤ g.price)
        ∧ (u.upperLimit = 0 ∨ g.price ≤ u.upperLimit))) := by
  unfold firstAllowedGift
  apply beastFindCongr
  intro g
  unfold giftAllowed priceTooLow priceTooHigh
  rw [Bool.eq_iff_iff]
  simp

/-- Claim C1, counterexample to the claim as stated: the debit for
`plushGift` succeeds (no refusal reason), the single external send call
fails, yet the ledger is not restored: credit drops from 100 to 70 and
the daily spend rises from 0 to 30. -/
theorem no_rollback_counterexample :
    (tryAutoBuy plushUser [plushGift] 5 (fun _ => false)).failReason = none
    ∧ (tryAutoBuy plushUser [plushGift] 5 (fun _ => false)).sendCalls = 1
    ∧ (tryAutoBuy plushUser [plushGift] 5 (fun _ => false)).sent = 0
    ∧ (tryAutoBuy plushUser [plushGift] 5 (fun _ => false)).state.credit = 70
    ∧ plushUser.credit = 100
    ∧ (tryAutoBuy plushUser [plushGift] 5 (fun _ => false)).state.spentToday = 30
    ∧ plushUser.spentToday = 0 := by decide

/-- Claim C1 as amended: after a successful debit the purchase attempt
never restores the ledger: whatever the send outcomes (including
failures), the final saved state is exactly the post-debit state, for
the auto engine and for the manual buy handler alike. -/
theorem purchase_no_rollback :
    (∀ (u : UserState) (items : List Gift) (today : Int) (f : Nat → Bool) (g : Gift),
      u.autoOn = true → firstAllowedGift u items = some g →
      (tryDebit u (g.price * autoQty u) today).2.1 = true →
      (tryAutoBuy u items today f).state = (tryDebit u (g.price * autoQty u) today).1)
    ∧ (∀ (u : UserState) (g : Gift) (count : Nat) (today : Int) (f : Nat → Bool),
      (tryDebit u (g.price * (count : Int)) today).2.1 = true →
      (onBuy u g count today f).state = (tryDebit u (g.price * (count : Int)) today).1) := by
  constructor
  · intro u items today f g ha hg hd
    simp [tryAutoBuy, purchaseAttempt, ha, hg, hd]
  · intro u g count today f hd
    simp [onBuy, purchaseAttempt, hd]

/-- Witness for the amended C1: every send fails, and both entry points
keep the post-debit state. -/
theorem purchase_no_rollback_witness :
    plushUser.autoOn = true
    ∧ firstAllowedGift plushUser [plushGift] = some plushGift
    ∧ (tryDebit plushUser (plushGift.price * autoQty plushUser) 5).2.1 = true
    ∧ (tryAutoBuy plushUser [plushGift] 5 (fun _ => false)).state
        = (tryDebit plushUser (plushGift.price * autoQty plushUser) 5).1
    ∧ (tryDebit plushUser (plushGift.price * ((2 : Nat) : Int)) 5).2.1 = true
    ∧ (onBuy plushUser plushGift 2 5 (fun _ => false)).state
        = (tryDebit plushUser (plushGift.price * ((2 : Nat) : Int)) 5).1 :=
  ⟨by decide, by decide, by decide,
   purchase_no_rollback.1 plushUser [plushGift] 5 (fun _ => false) plushGift
     (by decide) (by decide) (by decide),
   by decide,
   purchase_no_rollback.2 plushUser plushGift 2 5 (fun _ => false) (by decide)⟩

/-- Claim C8: when the ledger refuses the debit, both purchase entry
points stop at once: zero external send calls, and the attempt carries
the ledger's rejection reason. -/
theorem debit_refusal_no_send :
    (∀ (u : UserState) (items : List Gift) (today : Int) (f : Nat → Bool) (g : Gift),
      u.autoOn = true → firstAllowedGift u items = some g →
      (tryDebit u (g.price * autoQty u) today).2.1 = false →
      tryAutoBuy u items today f =
        ⟨(tryDebit u (g.price * autoQty u) today).1, 0, 0,
         some (tryDebit u (g.price * autoQty u) today).2.2⟩)
    ∧ (∀ (u : UserState) (g : Gift) (count : Nat) (today : Int) (f : Nat → Bool),
      (tryDebit u (g.price * (count : Int)) today).2.1 = false →
      onBuy u g count today f =
        ⟨(tryDebit u (g.price * (count : Int)) today).1, 0, 0,
         some (tryDebit u (g.price * (count : Int)) today).2.2⟩) := by
  constructor
  · intro u items today f g ha hg hd
    simp [tryAutoBuy, purchaseAttempt, ha, hg, hd]
  · intro u g count today f hd
    simp [onBuy, purchaseAttempt, hd]

/-- Witness for C8: 10 credit cannot cover a 30-star gift; both entry
points make zero send calls and return "Insufficient credit.". -/
theorem debit_refusal_no_send_witness :
    poorUser.autoOn = true
    ∧ firstAllowedGift poorUser [plushGift] = some plushGift
    ∧ (tryDebit poorUser (plushGift.price * autoQty poorUser) 5).2.1 = false
    ∧ tryAutoBuy poorUser [plushGift] 5 (fun _ => true) =
        ⟨(tryDebit poorUser (plushGift.price * autoQty poorUser) 5).1, 0, 0,
         some (tryDebit poorUser (plushGift.price * autoQty poorUser) 5).2.2⟩
    ∧ (tryDebit poorUser (plushGift.price * ((3 : Nat) : Int)) 5).2.1 = false
    ∧ onBuy poorUser plushGift 3 5 (fun _ => true) =
        ⟨(tryDebit poorUser (plushGift.price * ((3 : Nat) : Int)) 5).1, 0, 0,
         some (tryDebit poorUser (plushGift.price * ((3 : Nat) : Int)) 5).2.2⟩ :=
  ⟨by decide, by decide, by decide,
   debit_refusal_no_send.1 poorUser [plushGift] 5 (fun _ => true) plushGift
     (by decide) (by decide) (by decide),
   by decide,
   debit_refusal_no_send.2 poorUser plushGift 3 5 (fun _ => true) (by decide)⟩

/-- Claim C5: for an offer id processed (its check returned true) and
marked at time `t`, a second check at `t + d` returns false for every
`0 ≤ d < C` and true for every `d ≥ C`. -/
theorem cooldown_suppression (lastSeen : String → Option Int) (id : String)
    (t d C : Int) (hproc : shouldProcess lastSeen id t C = true) (hd : 0 ≤ d) :
    shouldProcess lastSeen id t C = true
    ∧ (d < C → shouldProcess (markSeen lastSeen id t) id (t + d) C = false)
    ∧ (C ≤ d → shouldProcess (markSeen lastSeen id t) id (t + d) C = true) := by
  refine ⟨hproc, ?_, ?_⟩ <;> intro h <;> simp [shouldProcess, markSeen] <;> omega

/-- Witness for C5 with the configured 600-second cooldown: suppressed
599 seconds after the mark, eligible again at 600. -/
theorem cooldown_suppression_witness :
    shouldProcess emptySeen "g1" 1000 BUY_COOLDOWN_SEC = true
    ∧ shouldProcess (markSeen emptySeen "g1" 1000) "g1" (1000 + 599) BUY_COOLDOWN_SEC = false
    ∧ shouldProcess (markSeen emptySeen "g1" 1000) "g1" (1000 + 600) BUY_COOLDOWN_SEC = true :=
  ⟨(cooldown_suppression emptySeen "g1" 1000 599 BUY_COOLDOWN_SEC (by decide) (by decide)).1,
   (cooldown_suppression emptySeen "g1" 1000 599 BUY_COOLDOWN_SEC (by decide) (by decide)).2.1
     (by decide),
   (cooldown_suppression emptySeen "g1" 1000 600 BUY_COOLDOWN_SEC (by decide) (by decide)).2.2
     (by decide)⟩

/-- Claim C10: the settings entry flow stores every numeric field
clamped to at least 0, stores per-drop-max as at least 1, and leaves
the settings untouched when the input does not parse as an integer. -/
theorem setField_clamped (u : UserState) (field : String) (n : Int) :
    0 ≤ clampField field n
    ∧ 1 ≤ clampField "per_drop_max" n
    ∧ setField u field none = u
    ∧ (setField u "cycles" (some n)).cycles = clampField "cycles" n
    ∧ (setField u "per_drop_max" (some n)).perDropMax = clampField "per_drop_max" n
    ∧ (setField u "lower_limit" (some n)).lowerLimit = clampField "lower_limit" n
    ∧ (setField u "upper_limit" (some n)).upperLimit = clampField "upper_limit" n
    ∧ (setField u "overall_limit" (some n)).overallLimit = clampField "overall_limit" n
    ∧ (setField u "supply_limit" (some n)).supplyLimit = clampField "supply_limit" n
    ∧ (setField u "daily_budget" (some n)).dailyBudget = clampField "daily_budget" n
    ∧ (setField u "gift_ttl_hours" (some n)).giftTtlHours = clampField "gift_ttl_hours" n := by
  have h0 : (0 : Int) ≤ max 0 n := le_max_left 0 n
  refine ⟨?_, ?_, rfl, rfl, rfl, rfl, rfl, rfl, rfl, rfl, rfl⟩
  · unfold clampField
    split_ifs <;> omega
  · unfold clampField
    split_ifs with h
    · omega
    · push_neg at h
      have h1 := h rfl
      omega

end Beast
